import Mathlib

/-!
Shallow embedding of the engagement / access-control core of the
video-sharing backend (Express + Mongoose, TypeScript sources under
`src/`).  Collections are modelled as insertion-ordered lists of
records; Mongo `findOne` / `findById` is `List.find?`, an in-place
`save` of a fetched document updates the first matching row, and
`new Model(...).save()` appends.  Each Express route handler is
transcribed as a pure function from the store and the request data to
a result plus the successor store.
-/

namespace YoutubeCore

/-- Account record (`user.model.ts`): unique lowercased username,
unique email, hashed password, avatar / cover image URLs, premium
flag, and the ordered `watchHistory` list of video ids. -/
structure User where
  id : Nat
  username : String
  email : String
  password : String
  avatar : String
  coverImage : String
  isPremium : Bool
  watchHistory : List Nat
  deriving Repr, DecidableEq

/-- Video record (`video.model.ts`): source/thumbnail URLs elided,
keeping the fields the verified routes read. -/
structure Video where
  id : Nat
  owner : Nat
  title : String
  description : String
  thumbnail : String
  deriving Repr, DecidableEq

/-- Tweet record (`tweets.model.ts`). -/
structure Tweet where
  id : Nat
  owner : Nat
  content : String
  deriving Repr, DecidableEq

/-- Comment record (`comments.model.ts`). -/
structure Comment where
  id : Nat
  owner : Nat
  video : Nat
  content : String
  deriving Repr, DecidableEq

/-- Like row (`likes.model.ts`): a disposition flag, the liking
account, and three optional foreign keys (comment / video / tweet),
of which the routes populate exactly one. -/
structure Like where
  likedBy : Nat
  comment : Option Nat := none
  video : Option Nat := none
  tweet : Option Nat := none
  isLiked : Bool := false
  deriving Repr, DecidableEq

/-- Subscription edge (`subscription.model.ts`): subscriber follows
channel. -/
structure Subscription where
  subscriber : Nat
  channel : Nat
  deriving Repr, DecidableEq

/-- The backing store: one insertion-ordered list per collection. -/
structure Store where
  users : List User
  videos : List Video
  tweets : List Tweet
  comments : List Comment
  likes : List Like
  subscriptions : List Subscription
  deriving Repr, DecidableEq

/-- A JSON body field as the handlers see it: `typeof x` dispatch. -/
inductive BodyVal where
  | bool (b : Bool)
  | str (s : String)
  | missing
  deriving Repr, DecidableEq

/-- Outcome of a like-toggle handler: success responds 201 with the
saved row; the catch block responds 400 (`message`, `error`). -/
inductive ToggleResult where
  | ok (status : Nat) (savedLike : Like)
  | err (status : Nat) (message : String) (error : String)
  deriving Repr, DecidableEq

/-- Mongoose `save` on a document fetched by `findOne p`: rewrite the
first row satisfying `p`, leave the rest untouched. -/
def updateFirst (p : α → Bool) (f : α → α) : List α → List α
  | [] => []
  | x :: xs => if p x then f x :: xs else x :: updateFirst p f xs

/-- `POST /videos/:videoId/toggle/like` (videoRoutes.ts).  Looks up the
authenticated user, the video, type-checks `toggleLike`, then either
updates the existing like row in place or creates a new one; desired
`false` with no row is a thrown error. -/
def videoToggleLike (store : Store) (userId videoId : Nat)
    (toggleLike : BodyVal) : ToggleResult × Store :=
  match store.users.find? (fun u => u.id == userId) with
  | none => (.err 400 "Unable to toggle the like" "Unable to find the user", store)
  | some _ =>
    match store.videos.find? (fun v => v.id == videoId) with
    | none => (.err 400 "Unable to toggle the like" "Unable to find the video", store)
    | some _ =>
      match toggleLike with
      | .bool b =>
        let p := fun l : Like => l.video == some videoId && l.likedBy == userId
        match store.likes.find? p with
        | some l =>
          (.ok 201 { l with isLiked := b },
           { store with likes := updateFirst p (fun l => { l with isLiked := b }) store.likes })
        | none =>
          if b then
            let newLike : Like := { likedBy := userId, video := some videoId, isLiked := true }
            (.ok 201 newLike, { store with likes := store.likes ++ [newLike] })
          else
            (.err 400 "Unable to toggle the like" "No like exists to remove.", store)
      | _ =>
        (.err 400 "Unable to toggle the like"
          "toggleLike must be a boolean: true to like or false to remove the like", store)

/-- `POST /tweets/:tweetId/toggle/like` (tweetRoutes.ts); same shape,
keyed on the `tweet` foreign-key field (the source reuses the message
"Unable to find the video" for a missing tweet). -/
def tweetToggleLike (store : Store) (userId tweetId : Nat)
    (toggleLike : BodyVal) : ToggleResult × Store :=
  match store.users.find? (fun u => u.id == userId) with
  | none => (.err 400 "Unable to toggle the like" "Unable to find the user", store)
  | some _ =>
    match store.tweets.find? (fun t => t.id == tweetId) with
    | none => (.err 400 "Unable to toggle the like" "Unable to find the video", store)
    | some _ =>
      match toggleLike with
      | .bool b =>
        let p := fun l : Like => l.tweet == some tweetId && l.likedBy == userId
        match store.likes.find? p with
        | some l =>
          (.ok 201 { l with isLiked := b },
           { store with likes := updateFirst p (fun l => { l with isLiked := b }) store.likes })
        | none =>
          if b then
            let newLike : Like := { likedBy := userId, tweet := some tweetId, isLiked := true }
            (.ok 201 newLike, { store with likes := store.likes ++ [newLike] })
          else
            (.err 400 "Unable to toggle the like" "No like exists to remove.", store)
      | _ =>
        (.err 400 "Unable to toggle the like"
          "toggleLike must be a boolean: true to like or false to remove the like", store)

/-- `POST /comments/:commentId/toggle/like` (commentRoutes.ts); same
shape, keyed on the `comment` foreign-key field. -/
def commentToggleLike (store : Store) (userId commentId : Nat)
    (toggleLike : BodyVal) : ToggleResult × Store :=
  match store.users.find? (fun u => u.id == userId) with
  | none => (.err 400 "Unable to toggle the like" "Unable to find the user", store)
  | some _ =>
    match store.comments.find? (fun c => c.id == commentId) with
    | none => (.err 400 "Unable to toggle the like" "Unable to find the video", store)
    | some _ =>
      match toggleLike with
      | .bool b =>
        let p := fun l : Like => l.comment == some commentId && l.likedBy == userId
        match store.likes.find? p with
        | some l =>
          (.ok 201 { l with isLiked := b },
           { store with likes := updateFirst p (fun l => { l with isLiked := b }) store.likes })
        | none =>
          if b then
            let newLike : Like := { likedBy := userId, comment := some commentId, isLiked := true }
            (.ok 201 newLike, { store with likes := store.likes ++ [newLike] })
          else
            (.err 400 "Unable to toggle the like" "No like exists to remove.", store)
      | _ =>
        (.err 400 "Unable to toggle the like"
          "toggleLike must be a boolean: true to like or false to remove the like", store)

/-- A like target: exactly one of the three resource kinds the three
toggle routes are instantiated at. -/
inductive Target where
  | video (id : Nat)
  | tweet (id : Nat)
  | comment (id : Nat)
  deriving Repr, DecidableEq

/-- The `findOne` filter each route uses for the (account, target)
pair. -/
def Target.pred (t : Target) (userId : Nat) (l : Like) : Bool :=
  match t with
  | .video i => l.video == some i && l.likedBy == userId
  | .tweet i => l.tweet == some i && l.likedBy == userId
  | .comment i => l.comment == some i && l.likedBy == userId

/-- Whether the target of a toggle request exists in the store. -/
def Target.existsIn (t : Target) (store : Store) : Bool :=
  match t with
  | .video i => (store.videos.find? (fun v => v.id == i)).isSome
  | .tweet i => (store.tweets.find? (fun tw => tw.id == i)).isSome
  | .comment i => (store.comments.find? (fun c => c.id == i)).isSome

/-- Dispatch of the shared toggle algorithm to the route matching the
target kind. -/
def setDisposition (store : Store) (userId : Nat) (t : Target)
    (toggleLike : BodyVal) : ToggleResult × Store :=
  match t with
  | .video i => videoToggleLike store userId i toggleLike
  | .tweet i => tweetToggleLike store userId i toggleLike
  | .comment i => commentToggleLike store userId i toggleLike

/-- The like rows the store holds for one (account, target) pair. -/
def pairRows (store : Store) (userId : Nat) (t : Target) : List Like :=
  store.likes.filter (t.pred userId)

/-- Whether an account exists in the store. -/
def userExists (store : Store) (userId : Nat) : Bool :=
  (store.users.find? (fun u => u.id == userId)).isSome

/-- Outcome of an edit/delete handler: success status plus message, or
the catch-block response (status, `message`, `error`). -/
inductive OpResult where
  | ok (status : Nat) (message : String)
  | err (status : Nat) (message : String) (error : String)
  deriving Repr, DecidableEq

/-- JavaScript `String.prototype.trim`: strip leading and trailing
whitespace (executable model over the character list). -/
def jsTrim (s : String) : String :=
  String.mk (((s.data.dropWhile Char.isWhitespace).reverse.dropWhile
    Char.isWhitespace).reverse)

/-- JavaScript `String.prototype.toLowerCase` (executable model over
the character list). -/
def jsToLower (s : String) : String :=
  String.mk (s.data.map Char.toLower)

/-- JavaScript truthiness of an optional string body field: `undefined`
and the empty string are falsy. -/
def jsTruthy : Option String → Bool
  | none => false
  | some s => !(s == "")

/-- `DELETE /videos/delete/:videoId` (videoRoutes.ts): user lookup,
video lookup (`Video not found.`), strict owner equality, then delete.
Its catch block responds with status 500. -/
def deleteVideo (store : Store) (userId videoId : Nat) : OpResult × Store :=
  match store.users.find? (fun u => u.id == userId) with
  | none => (.err 500 "Unable to delete the video." "Unable to find the user", store)
  | some _ =>
    match store.videos.find? (fun v => v.id == videoId) with
    | none => (.err 500 "Unable to delete the video." "Video not found.", store)
    | some v =>
      if v.owner != userId then
        (.err 500 "Unable to delete the video."
          "Unauthorized: Only the owner can delete this video.", store)
      else
        (.ok 200 "Video deleted successfully.",
         { store with videos := store.videos.filter (fun w => w.id != videoId) })

/-- `PATCH /videos/edit/:videoId` (videoRoutes.ts): video lookup, owner
check, optional thumbnail replacement, title/description updated only
when truthy.  No separate user-existence lookup in this handler. -/
def editVideo (store : Store) (userId videoId : Nat)
    (title description thumbnail : Option String) : OpResult × Store :=
  match store.videos.find? (fun v => v.id == videoId) with
  | none => (.err 400 "Unable to edit the video" "Video not found.", store)
  | some v =>
      if v.owner != userId then
        (.err 400 "Unable to edit the video"
          "Unauthorized: Only the owner can edit this video.", store)
      else
        let v1 := match thumbnail with
          | some url => { v with thumbnail := url }
          | none => v
        let v2 := if jsTruthy title then { v1 with title := title.getD v1.title } else v1
        let v3 := if jsTruthy description then
            { v2 with description := description.getD v2.description } else v2
        (.ok 200 "Video updated successfully",
         { store with videos := updateFirst (fun w => w.id == videoId) (fun _ => v3) store.videos })

/-- `DELETE /tweets/delete/:tweetId` (tweetRoutes.ts). -/
def deleteTweet (store : Store) (userId tweetId : Nat) : OpResult × Store :=
  match store.users.find? (fun u => u.id == userId) with
  | none => (.err 400 "Unable to delete the tweet" "Unable to find the user", store)
  | some _ =>
    match store.tweets.find? (fun t => t.id == tweetId) with
    | none => (.err 400 "Unable to delete the tweet" "Tweet not found.", store)
    | some t =>
      if t.owner != userId then
        (.err 400 "Unable to delete the tweet"
          "Unauthorized: Only the owner can delete this tweet.", store)
      else
        (.ok 200 "Tweet deleted successfully.",
         { store with tweets := store.tweets.filter (fun s => s.id != tweetId) })

/-- `PATCH /tweets/edit/:tweetId` (tweetRoutes.ts): the ownership
failure reuses the delete wording, and the success message also says
"deleted" — both kept verbatim from the source. -/
def editTweet (store : Store) (userId tweetId : Nat)
    (content : Option String) : OpResult × Store :=
  match store.users.find? (fun u => u.id == userId) with
  | none => (.err 400 "Unable to edit the tweet" "Unable to find the user", store)
  | some _ =>
    match store.tweets.find? (fun t => t.id == tweetId) with
    | none => (.err 400 "Unable to edit the tweet" "Tweet not found.", store)
    | some t =>
      if t.owner != userId then
        (.err 400 "Unable to edit the tweet"
          "Unauthorized: Only the owner can delete this tweet.", store)
      else
        if jsTruthy content then
          let tweets1 :=
            updateFirst (fun s => s.id == tweetId)
              (fun s => { s with content := content.getD s.content }) store.tweets
          (.ok 200 "Tweet deleted successfully.", { store with tweets := tweets1 })
        else
          (.err 400 "Unable to edit the tweet" "No new content Provided", store)

/-- `DELETE /comments/delete/:commentId` (commentRoutes.ts). -/
def deleteComment (store : Store) (userId commentId : Nat) : OpResult × Store :=
  match store.users.find? (fun u => u.id == userId) with
  | none => (.err 400 "Unable to delete the comment" "User not found", store)
  | some _ =>
    match store.comments.find? (fun c => c.id == commentId) with
    | none => (.err 400 "Unable to delete the comment" "Comment not found", store)
    | some c =>
      if c.owner != userId then
        (.err 400 "Unable to delete the comment"
          "Unauthorized: Only the comment owner can delete this comment", store)
      else
        (.ok 200 "deleted",
         { store with comments := store.comments.filter (fun d => d.id != commentId) })

/-- `PATCH /comments/edit/:commentId` (commentRoutes.ts): content must
be present and not whitespace-only. -/
def editComment (store : Store) (userId commentId : Nat)
    (content : Option String) : OpResult × Store :=
  match store.users.find? (fun u => u.id == userId) with
  | none => (.err 400 "Unable to edit the comment" "User not found", store)
  | some _ =>
    match store.comments.find? (fun c => c.id == commentId) with
    | none => (.err 400 "Unable to edit the comment" "Comment not found", store)
    | some c =>
      if c.owner != userId then
        (.err 400 "Unable to edit the comment"
          "Unauthorized: Only the owner can edit this comment", store)
      else
        match content with
        | some s =>
          if jsTrim s == "" then
            (.err 400 "Unable to edit the comment" "Please enter valid comment content", store)
          else
            let comments1 :=
              updateFirst (fun d => d.id == commentId)
                (fun d => { d with content := s }) store.comments
            (.ok 200 "saved", { store with comments := comments1 })
        | none =>
          (.err 400 "Unable to edit the comment" "Please enter valid comment content", store)

/-- A session token as seen by the server (`jwt.verify`): the payload
account id, the expiry instant, and whether the signature verifies
against the server secret. -/
structure SessionToken where
  uid : Nat
  exp : Nat
  sigValid : Bool
  deriving Repr, DecidableEq

/-- `jwt.verify`: signature mismatch raises `JsonWebTokenError`, an
expired token raises `TokenExpiredError`, otherwise the payload is
returned. -/
def jwtVerify (tok : SessionToken) (now : Nat) : Except String Nat :=
  if !tok.sigValid then .error "JsonWebTokenError"
  else if tok.exp ≤ now then .error "TokenExpiredError"
  else .ok tok.uid

/-- Result of the authentication middleware: either the resolved user
is attached to the request and the chain continues, or a 401 response
ends the request. -/
inductive AuthResult where
  | ok (user : User)
  | unauthorized (status : Nat) (message : String)
  deriving Repr, DecidableEq

/-- `authenticateUser` (auth.middleware.ts): missing cookie throws, the
token is verified, the referenced account is looked up (a missing
account throws), and every thrown error is mapped to a 401 response
whose message depends on the JWT error name. -/
def authenticateUser (store : Store) (cookie : Option SessionToken)
    (now : Nat) : AuthResult :=
  match cookie with
  | none => .unauthorized 401 "Authentication failed. Please try again."
  | some tok =>
    match jwtVerify tok now with
    | .error e =>
      if e == "JsonWebTokenError" then .unauthorized 401 "Invalid authentication token"
      else if e == "TokenExpiredError" then
        .unauthorized 401 "Session expired. Please log in again."
      else .unauthorized 401 "Authentication failed. Please try again."
    | .ok uid =>
      match store.users.find? (fun u => u.id == uid) with
      | none => .unauthorized 401 "Authentication failed. Please try again."
      | some u => .ok u

/-- A route guarded by `authenticateUser`: the protected handler runs
only when the middleware calls `next()`; otherwise the middleware's
401 response is the whole response. -/
def withAuth (store : Store) (cookie : Option SessionToken) (now : Nat)
    (handler : User → Nat × String) : Nat × String :=
  match authenticateUser store cookie now with
  | .ok u => handler u
  | .unauthorized s m => (s, m)

/-- Status of an `AuthResult` as sent to the client (200 stands for
"middleware passed"). -/
def AuthResult.status : AuthResult → Nat
  | .ok _ => 200
  | .unauthorized s _ => s

/-- Whether the middleware let the request through. -/
def AuthResult.allowed : AuthResult → Bool
  | .ok _ => true
  | .unauthorized _ _ => false

/-- The channel profile document produced by the `$project` stage of
`GET /users/:username`: username, avatar, coverImage, isPremium,
email, plus the three derived engagement fields (`_id` is kept by
default). -/
structure ChannelProfile where
  id : Nat
  username : String
  avatar : String
  coverImage : String
  isPremium : Bool
  email : String
  subscribersCount : Nat
  subscribedToCount : Nat
  isSubscribed : Bool
  deriving Repr, DecidableEq

/-- The aggregation pipeline of `GET /users/:username` (userRoutes.ts):
match the lowercased username, join both subscription directions,
derive the counts and the `$in`-based `isSubscribed` flag, and project.
`reqUser` is the value of `req.user?._id` at pipeline-build time. -/
def getUserChannelProfile (store : Store) (username : String)
    (reqUser : Option Nat) : Except (Nat × String) ChannelProfile :=
  if jsTrim username == "" then
    .error (400, "Username not found")
  else
    match store.users.find? (fun u => u.username == jsToLower username) with
    | none => .error (400, "Channel not found.")
    | some u =>
      let subscribers := store.subscriptions.filter (fun s => s.channel == u.id)
      let subscribedTo := store.subscriptions.filter (fun s => s.subscriber == u.id)
      let isSub := match reqUser with
        | some v => subscribers.any (fun s => s.subscriber == v)
        | none => false
      .ok { id := u.id, username := u.username, avatar := u.avatar,
            coverImage := u.coverImage, isPremium := u.isPremium, email := u.email,
            subscribersCount := subscribers.length,
            subscribedToCount := subscribedTo.length,
            isSubscribed := isSub }

/-- The `GET /users/:username` route as registered: it carries no
authentication middleware, so `req.user` still holds its initial
undefined value when the handler runs — whatever session cookie the
request carries is never read, and the pipeline is built with
`req.user?._id` undefined. -/
def channelProfileRoute (store : Store) (_cookie : Option SessionToken)
    (_now : Nat) (username : String) : Except (Nat × String) ChannelProfile :=
  getUserChannelProfile store username none

/-- The owner subdocument attached to each history entry: the inner
`$project` keeps username and avatar (and `_id` by default). -/
structure HistoryOwner where
  id : Nat
  username : String
  avatar : String
  deriving Repr, DecidableEq

/-- One entry of the watch-history view: the video joined with its
owner's projected fields (`$first` of the looked-up owner array). -/
structure HistoryEntry where
  id : Nat
  title : String
  description : String
  thumbnail : String
  owner : Option HistoryOwner
  deriving Repr, DecidableEq

/-- The join of one video with its owner for the history view. -/
def historyEntryOf (store : Store) (v : Video) : HistoryEntry :=
  { id := v.id, title := v.title, description := v.description,
    thumbnail := v.thumbnail,
    owner := (store.users.find? (fun o => o.id == v.owner)).map
      (fun o => { id := o.id, username := o.username, avatar := o.avatar }) }

/-- The aggregation body of the `GET /users/me/history` handler
(userRoutes.ts), over an already-resolved account id: `$match` the
user by id, then `$lookup` videos with `localField: watchHistory` (an
array).  A `$lookup` over an array local field behaves as an `$in`
join: the produced array holds each matching foreign document once,
in the foreign collection's order — not in the order (or multiplicity)
of the local `watchHistory` array.  As the route is registered this
body is never reached (see `historyRoute`): it models the code below
the `req.user._id` read, which presupposes a populated `req.user`. -/
def getWatchHistory (store : Store) (userId : Nat) :
    Except (Nat × String) (List HistoryEntry) :=
  match store.users.find? (fun u => u.id == userId) with
  | none => .error (400, "Unable to fetch the watch History")
  | some u =>
    .ok ((store.videos.filter (fun v => u.watchHistory.contains v.id)).map
      (historyEntryOf store))

/-- The value of `req.user` when the history handler runs: the route
registers no middleware — only a block comment stands between the
path string and the handler — and nothing else on the request path
sets `req.user`, so it still holds its initial undefined value. -/
def historyReqUser : Option User := none

/-- `GET /users/me/history` as registered (userRoutes.ts): with
`req.user` undefined, the very first line `req.user._id` raises a
TypeError, the catch block answers 400, and the aggregation body is
unreachable; the cookie is never consulted. -/
def historyRoute (store : Store) (_cookie : Option SessionToken)
    (_now : Nat) : Except (Nat × String) (List HistoryEntry) :=
  match historyReqUser with
  | none => .error (400, "Unable to fetch the watch History")
  | some u => getWatchHistory store u.id

/-- The shared `All fields are required` check of `POST /auth/register`
and `POST /auth/login` (authRoutes.ts): the request is rejected when
`field?.trim() === ""` holds for some listed body field.  For an
absent field the optional chain yields `undefined`, and
`undefined === ""` is false. -/
def someFieldBlank (fields : List (Option String)) : Bool :=
  fields.any (fun f => match f with
    | some s => jsTrim s == ""
    | none => false)

/-- The register route's instantiation over username, email, password. -/
def registerAllFieldsCheckFails (username email password : Option String) : Bool :=
  someFieldBlank [username, email, password]

/-- The login route's instantiation over email, password. -/
def loginAllFieldsCheckFails (email password : Option String) : Bool :=
  someFieldBlank [email, password]

/-- Declared index metadata of a Mongoose schema. -/
structure IndexSpec where
  fields : List String
  unique : Bool
  deriving Repr, DecidableEq

/-- Indexes declared on `subscription.model.ts`: the compound unique
index on (subscriber, channel). -/
def subscriptionSchemaIndexes : List IndexSpec :=
  [{ fields := ["subscriber", "channel"], unique := true }]

/-- Indexes declared on `likes.model.ts`: four single-field indexes
(`likedBy`, `comment`, `video`, `tweet`), all non-unique; the schema
declares no unique constraint at all. -/
def likeSchemaIndexes : List IndexSpec :=
  [{ fields := ["likedBy"], unique := false },
   { fields := ["comment"], unique := false },
   { fields := ["video"], unique := false },
   { fields := ["tweet"], unique := false }]

/-- A storage-layer insert into the subscriptions collection: the
unique compound index makes the store itself reject a duplicate
(subscriber, channel) pair with a duplicate-key error. -/
def insertSubscription (store : Store) (s : Subscription) : Except String Store :=
  if store.subscriptions.any (fun t => t.subscriber == s.subscriber && t.channel == s.channel)
  then .error "E11000 duplicate key"
  else .ok { store with subscriptions := store.subscriptions ++ [s] }

/-- A storage-layer insert into the likes collection: with no unique
index declared, the store accepts every insert, duplicates included. -/
def insertLike (store : Store) (l : Like) : Store :=
  { store with likes := store.likes ++ [l] }

/-- The like row each toggle route creates on first like. -/
def Target.newLike (t : Target) (userId : Nat) : Like :=
  match t with
  | .video i => { likedBy := userId, video := some i, isLiked := true }
  | .tweet i => { likedBy := userId, tweet := some i, isLiked := true }
  | .comment i => { likedBy := userId, comment := some i, isLiked := true }

/- ### Shared list lemmas -/

theorem find?_eq_filter_head (p : α → Bool) (l : List α) :
    l.find? p = (l.filter p).head? := by
  induction l with
  | nil => rfl
  | cons x xs ih =>
    cases hx : p x with
    | true => rw [List.find?_cons_of_pos _ hx, List.filter_cons_of_pos hx, List.head?_cons]
    | false =>
      rw [List.find?_cons_of_neg _ (by simp [hx]), List.filter_cons_of_neg (by simp [hx]), ih]

theorem filter_updateFirst (p : α → Bool) (f : α → α)
    (hf : ∀ x, p (f x) = p x) (l : List α) :
    (updateFirst p f l).filter p = (l.filter p).modifyHead f := by
  induction l with
  | nil => rfl
  | cons x xs ih =>
    by_cases hx : p x
    · simp [updateFirst, List.filter_cons, hx, hf x]
    · simp [updateFirst, List.filter_cons, hx, ih]

/- ### Frame lemmas for the toggle routes -/

theorem setDisposition_frame (store : Store) (a : Nat) (t : Target) (body : BodyVal) :
    (setDisposition store a t body).2.users = store.users ∧
    (setDisposition store a t body).2.videos = store.videos ∧
    (setDisposition store a t body).2.tweets = store.tweets ∧
    (setDisposition store a t body).2.comments = store.comments := by
  cases t <;>
    simp only [setDisposition, videoToggleLike, tweetToggleLike, commentToggleLike] <;>
    (repeat' split) <;> exact ⟨rfl, rfl, rfl, rfl⟩

theorem setDisposition_userExists (store : Store) (a a2 : Nat) (t : Target) (body : BodyVal) :
    userExists (setDisposition store a t body).2 a2 = userExists store a2 := by
  unfold userExists
  rw [(setDisposition_frame store a t body).1]

theorem setDisposition_targetExists (store : Store) (a : Nat) (t t2 : Target) (body : BodyVal) :
    t2.existsIn (setDisposition store a t body).2 = t2.existsIn store := by
  obtain ⟨-, hv, ht, hc⟩ := setDisposition_frame store a t body
  cases t2 with
  | video i => simp only [Target.existsIn]; rw [hv]
  | tweet i => simp only [Target.existsIn]; rw [ht]
  | comment i => simp only [Target.existsIn]; rw [hc]

theorem setDisposition_nonbool (store : Store) (a : Nat) (t : Target) (body : BodyVal)
    (h : ∀ b, body ≠ .bool b) : (setDisposition store a t body).2 = store := by
  cases body with
  | bool b => exact absurd rfl (h b)
  | str s =>
    cases t <;>
      simp only [setDisposition, videoToggleLike, tweetToggleLike, commentToggleLike] <;>
      (repeat' split) <;> rfl
  | missing =>
    cases t <;>
      simp only [setDisposition, videoToggleLike, tweetToggleLike, commentToggleLike] <;>
      (repeat' split) <;> rfl

/-- The pair-row evolution of one toggle call: with the requester and
the target present, the call rewrites the head of the pair's row list
(creating the row only from the empty state with desired `true`). -/
theorem setDisposition_pairRows (store : Store) (a : Nat) (t : Target) (b : Bool)
    (hu : userExists store a = true) (ht : t.existsIn store = true) :
    pairRows (setDisposition store a t (.bool b)).2 a t =
      (match pairRows store a t with
       | [] => if b then [t.newLike a] else []
       | x :: xs => { x with isLiked := b } :: xs) := by
  obtain ⟨u, hu⟩ := Option.isSome_iff_exists.mp hu
  cases t with
  | video i =>
    obtain ⟨v, hv⟩ := Option.isSome_iff_exists.mp ht
    have hpred : (fun l : Like => l.video == some i && l.likedBy == a)
        = Target.pred (.video i) a := rfl
    simp only [setDisposition, videoToggleLike, hu, hv, hpred, pairRows]
    rw [find?_eq_filter_head]
    rcases hsplit : List.filter (Target.pred (Target.video i) a) store.likes with _ | ⟨x, xs⟩
    · simp only [List.head?_nil]
      rcases b with _ | _
      · simpa using hsplit
      · simp [List.filter_append, hsplit, Target.pred, Target.newLike]
    · simp only [List.head?_cons]
      rw [filter_updateFirst ((Target.video i).pred a) (fun l : Like => { l with isLiked := b }) (fun l => rfl), hsplit]
      rfl
  | tweet i =>
    obtain ⟨v, hv⟩ := Option.isSome_iff_exists.mp ht
    have hpred : (fun l : Like => l.tweet == some i && l.likedBy == a)
        = Target.pred (.tweet i) a := rfl
    simp only [setDisposition, tweetToggleLike, hu, hv, hpred, pairRows]
    rw [find?_eq_filter_head]
    rcases hsplit : List.filter (Target.pred (Target.tweet i) a) store.likes with _ | ⟨x, xs⟩
    · simp only [List.head?_nil]
      rcases b with _ | _
      · simpa using hsplit
      · simp [List.filter_append, hsplit, Target.pred, Target.newLike]
    · simp only [List.head?_cons]
      rw [filter_updateFirst ((Target.tweet i).pred a) (fun l : Like => { l with isLiked := b }) (fun l => rfl), hsplit]
      rfl
  | comment i =>
    obtain ⟨v, hv⟩ := Option.isSome_iff_exists.mp ht
    have hpred : (fun l : Like => l.comment == some i && l.likedBy == a)
        = Target.pred (.comment i) a := rfl
    simp only [setDisposition, commentToggleLike, hu, hv, hpred, pairRows]
    rw [find?_eq_filter_head]
    rcases hsplit : List.filter (Target.pred (Target.comment i) a) store.likes with _ | ⟨x, xs⟩
    · simp only [List.head?_nil]
      rcases b with _ | _
      · simpa using hsplit
      · simp [List.filter_append, hsplit, Target.pred, Target.newLike]
    · simp only [List.head?_cons]
      rw [filter_updateFirst ((Target.comment i).pred a) (fun l : Like => { l with isLiked := b }) (fun l => rfl), hsplit]
      rfl

theorem Target.newLike_isLiked (t : Target) (a : Nat) : (t.newLike a).isLiked = true := by
  cases t <;> rfl

/-- One toggle call with desired `true` leaves exactly one row for the
pair, with disposition true, whenever at most one row was there. -/
theorem setDisposition_true_step (store : Store) (a : Nat) (t : Target)
    (hu : userExists store a = true) (ht : t.existsIn store = true)
    (hle : (pairRows store a t).length ≤ 1) :
    ∃ l : Like, pairRows (setDisposition store a t (.bool true)).2 a t = [l]
      ∧ l.isLiked = true := by
  rw [setDisposition_pairRows store a t true hu ht]
  rcases hP : pairRows store a t with _ | ⟨x, xs⟩
  · exact ⟨t.newLike a, by simp, t.newLike_isLiked a⟩
  · have hxs : xs = [] := by
      rw [hP, List.length_cons] at hle
      exact List.eq_nil_of_length_eq_zero (by omega)
    subst hxs
    exact ⟨{ x with isLiked := true }, rfl, rfl⟩

/-- One toggle call on a pair holding exactly one row rewrites that
row's disposition and keeps it the only row. -/
theorem setDisposition_single_step (store : Store) (a : Nat) (t : Target) (b : Bool)
    (hu : userExists store a = true) (ht : t.existsIn store = true)
    (l : Like) (h1 : pairRows store a t = [l]) :
    pairRows (setDisposition store a t (.bool b)).2 a t = [{ l with isLiked := b }] := by
  rw [setDisposition_pairRows store a t b hu ht, h1]

/-- C1: the toggle operation keeps at most one like row per (account,
target) pair — an existing row is updated in place, a row is created
only from the absent state — and the three-call sequence true, false,
true leaves exactly one row for the pair with disposition true. -/
theorem toggle_keeps_single_like_row (store : Store) (a : Nat) (t : Target)
    (hu : userExists store a = true) (ht : t.existsIn store = true)
    (hle : (pairRows store a t).length ≤ 1) :
    (∀ body : BodyVal, (pairRows (setDisposition store a t body).2 a t).length ≤ 1) ∧
    ((pairRows (setDisposition (setDisposition (setDisposition store a t
        (.bool true)).2 a t (.bool false)).2 a t (.bool true)).2 a t).length = 1 ∧
      ∀ l ∈ pairRows (setDisposition (setDisposition (setDisposition store a t
        (.bool true)).2 a t (.bool false)).2 a t (.bool true)).2 a t, l.isLiked = true) := by
  constructor
  · intro body
    cases body with
    | bool b =>
      rw [setDisposition_pairRows store a t b hu ht]
      rcases hP : pairRows store a t with _ | ⟨x, xs⟩
      · cases b <;> simp
      · have hxs : xs = [] := by
          rw [hP, List.length_cons] at hle
          exact List.eq_nil_of_length_eq_zero (by omega)
        subst hxs
        simp
    | str s => rw [setDisposition_nonbool store a t (.str s) (by intro b hb; cases hb)]; exact hle
    | missing => rw [setDisposition_nonbool store a t .missing (by intro b hb; cases hb)]; exact hle
  · obtain ⟨l1, h1, -⟩ := setDisposition_true_step store a t hu ht hle
    have hu1 : userExists (setDisposition store a t (.bool true)).2 a = true := by
      rw [setDisposition_userExists]; exact hu
    have ht1 : t.existsIn (setDisposition store a t (.bool true)).2 = true := by
      rw [setDisposition_targetExists]; exact ht
    have h2 := setDisposition_single_step _ a t false hu1 ht1 l1 h1
    have hu2 : userExists (setDisposition (setDisposition store a t (.bool true)).2
        a t (.bool false)).2 a = true := by
      rw [setDisposition_userExists]; exact hu1
    have ht2 : t.existsIn (setDisposition (setDisposition store a t (.bool true)).2
        a t (.bool false)).2 = true := by
      rw [setDisposition_targetExists]; exact ht1
    have h3 := setDisposition_single_step _ a t true hu2 ht2 _ h2
    rw [h3]
    exact ⟨rfl, by intro l hl; rw [List.mem_singleton] at hl; rw [hl]⟩

/-- A one-user, one-video store with no like rows yet. -/
def storeC1 : Store :=
  { users := [{ id := 1, username := "alice", email := "alice@example.com",
                password := "hash", avatar := "", coverImage := "",
                isPremium := false, watchHistory := [] }],
    videos := [{ id := 5, owner := 1, title := "t", description := "d", thumbnail := "" }],
    tweets := [], comments := [], likes := [], subscriptions := [] }

/-- C1 witness: the invariant and the true/false/true sequence at a
concrete store, account 1 and video 5. -/
theorem toggle_keeps_single_like_row_witness :
    userExists storeC1 1 = true ∧ (Target.video 5).existsIn storeC1 = true ∧
    (pairRows storeC1 1 (.video 5)).length ≤ 1 ∧
    ((∀ body : BodyVal,
        (pairRows (setDisposition storeC1 1 (.video 5) body).2 1 (.video 5)).length ≤ 1) ∧
      ((pairRows (setDisposition (setDisposition (setDisposition storeC1 1 (.video 5)
          (.bool true)).2 1 (.video 5) (.bool false)).2 1 (.video 5) (.bool true)).2
          1 (.video 5)).length = 1 ∧
        ∀ l ∈ pairRows (setDisposition (setDisposition (setDisposition storeC1 1 (.video 5)
          (.bool true)).2 1 (.video 5) (.bool false)).2 1 (.video 5) (.bool true)).2
          1 (.video 5), l.isLiked = true)) :=
  ⟨by decide, by decide, by decide,
    toggle_keeps_single_like_row storeC1 1 (.video 5) (by decide) (by decide) (by decide)⟩

/-- C3: desired `false` on a pair with no row is a hard error — the
handler responds with the 400 catch response carrying "No like exists
to remove." and the store is unchanged (no row created). -/
theorem unlike_without_row_hard_error (store : Store) (a : Nat) (t : Target)
    (hu : userExists store a = true) (ht : t.existsIn store = true)
    (h0 : pairRows store a t = []) :
    setDisposition store a t (.bool false)
      = (.err 400 "Unable to toggle the like" "No like exists to remove.", store) := by
  simp only [pairRows] at h0
  obtain ⟨u, hu⟩ := Option.isSome_iff_exists.mp hu
  cases t with
  | video i =>
    obtain ⟨v, hv⟩ := Option.isSome_iff_exists.mp ht
    have hpred : (fun l : Like => l.video == some i && l.likedBy == a)
        = Target.pred (.video i) a := rfl
    simp only [setDisposition, videoToggleLike, hu, hv, hpred]
    rw [find?_eq_filter_head, h0]
    rfl
  | tweet i =>
    obtain ⟨v, hv⟩ := Option.isSome_iff_exists.mp ht
    have hpred : (fun l : Like => l.tweet == some i && l.likedBy == a)
        = Target.pred (.tweet i) a := rfl
    simp only [setDisposition, tweetToggleLike, hu, hv, hpred]
    rw [find?_eq_filter_head, h0]
    rfl
  | comment i =>
    obtain ⟨v, hv⟩ := Option.isSome_iff_exists.mp ht
    have hpred : (fun l : Like => l.comment == some i && l.likedBy == a)
        = Target.pred (.comment i) a := rfl
    simp only [setDisposition, commentToggleLike, hu, hv, hpred]
    rw [find?_eq_filter_head, h0]
    rfl

/-- A one-user, one-tweet store with no like rows. -/
def storeC3 : Store :=
  { users := [{ id := 2, username := "bob", email := "bob@example.com",
                password := "hash", avatar := "", coverImage := "",
                isPremium := false, watchHistory := [] }],
    videos := [], tweets := [{ id := 9, owner := 2, content := "hi" }],
    comments := [], likes := [], subscriptions := [] }

/-- C3 witness: unliking tweet 9 as account 2 with no like row errs and
leaves the store unchanged. -/
theorem unlike_without_row_hard_error_witness :
    userExists storeC3 2 = true ∧ (Target.tweet 9).existsIn storeC3 = true ∧
    pairRows storeC3 2 (.tweet 9) = [] ∧
    setDisposition storeC3 2 (.tweet 9) (.bool false)
      = (.err 400 "Unable to toggle the like" "No like exists to remove.", storeC3) :=
  ⟨by decide, by decide, by decide,
    unlike_without_row_hard_error storeC3 2 (.tweet 9) (by decide) (by decide) (by decide)⟩

/-- C4: for each edit/delete handler of the three resource kinds, a
missing resource yields the NotFound failure before any ownership
evaluation (so a non-owner requesting a nonexistent resource sees
NotFound, never Unauthorized), a present resource with a different
owner yields the Unauthorized failure with the store unchanged, and
only the owner's request reaches the mutation. -/
theorem edit_delete_ownership_gate (store : Store) (uid rid : Nat)
    (hu : userExists store uid = true) :
    ((store.videos.find? (fun w => w.id == rid) = none →
        deleteVideo store uid rid
          = (.err 500 "Unable to delete the video." "Video not found.", store)) ∧
      (∀ v, store.videos.find? (fun w => w.id == rid) = some v → v.owner ≠ uid →
        deleteVideo store uid rid
          = (.err 500 "Unable to delete the video."
              "Unauthorized: Only the owner can delete this video.", store)) ∧
      (∀ v, store.videos.find? (fun w => w.id == rid) = some v → v.owner = uid →
        deleteVideo store uid rid
          = (.ok 200 "Video deleted successfully.",
             { store with videos := store.videos.filter (fun w => w.id != rid) }))) ∧
    (∀ title description thumbnail,
      (store.videos.find? (fun w => w.id == rid) = none →
        editVideo store uid rid title description thumbnail
          = (.err 400 "Unable to edit the video" "Video not found.", store)) ∧
      (∀ v, store.videos.find? (fun w => w.id == rid) = some v → v.owner ≠ uid →
        editVideo store uid rid title description thumbnail
          = (.err 400 "Unable to edit the video"
              "Unauthorized: Only the owner can edit this video.", store)) ∧
      (∀ v, store.videos.find? (fun w => w.id == rid) = some v → v.owner = uid →
        (editVideo store uid rid title description thumbnail).1
          = .ok 200 "Video updated successfully")) ∧
    ((store.tweets.find? (fun w => w.id == rid) = none →
        deleteTweet store uid rid
          = (.err 400 "Unable to delete the tweet" "Tweet not found.", store)) ∧
      (∀ t, store.tweets.find? (fun w => w.id == rid) = some t → t.owner ≠ uid →
        deleteTweet store uid rid
          = (.err 400 "Unable to delete the tweet"
              "Unauthorized: Only the owner can delete this tweet.", store)) ∧
      (∀ t, store.tweets.find? (fun w => w.id == rid) = some t → t.owner = uid →
        deleteTweet store uid rid
          = (.ok 200 "Tweet deleted successfully.",
             { store with tweets := store.tweets.filter (fun w => w.id != rid) }))) ∧
    (∀ content,
      (store.tweets.find? (fun w => w.id == rid) = none →
        editTweet store uid rid content
          = (.err 400 "Unable to edit the tweet" "Tweet not found.", store)) ∧
      (∀ t, store.tweets.find? (fun w => w.id == rid) = some t → t.owner ≠ uid →
        editTweet store uid rid content
          = (.err 400 "Unable to edit the tweet"
              "Unauthorized: Only the owner can delete this tweet.", store)) ∧
      (∀ t, store.tweets.find? (fun w => w.id == rid) = some t → t.owner = uid →
        jsTruthy content = true →
        (editTweet store uid rid content).1 = .ok 200 "Tweet deleted successfully.")) ∧
    ((store.comments.find? (fun w => w.id == rid) = none →
        deleteComment store uid rid
          = (.err 400 "Unable to delete the comment" "Comment not found", store)) ∧
      (∀ c, store.comments.find? (fun w => w.id == rid) = some c → c.owner ≠ uid →
        deleteComment store uid rid
          = (.err 400 "Unable to delete the comment"
              "Unauthorized: Only the comment owner can delete this comment", store)) ∧
      (∀ c, store.comments.find? (fun w => w.id == rid) = some c → c.owner = uid →
        deleteComment store uid rid
          = (.ok 200 "deleted",
             { store with comments := store.comments.filter (fun w => w.id != rid) }))) ∧
    (∀ content,
      (store.comments.find? (fun w => w.id == rid) = none →
        editComment store uid rid content
          = (.err 400 "Unable to edit the comment" "Comment not found", store)) ∧
      (∀ c, store.comments.find? (fun w => w.id == rid) = some c → c.owner ≠ uid →
        editComment store uid rid content
          = (.err 400 "Unable to edit the comment"
              "Unauthorized: Only the owner can edit this comment", store)) ∧
      (∀ c s, store.comments.find? (fun w => w.id == rid) = some c → c.owner = uid →
        content = some s → jsTrim s ≠ "" →
        (editComment store uid rid content).1 = .ok 200 "saved")) := by
  obtain ⟨u, hufound⟩ := Option.isSome_iff_exists.mp hu
  refine ⟨⟨?_, ?_, ?_⟩, fun title description thumbnail => ⟨?_, ?_, ?_⟩,
    ⟨?_, ?_, ?_⟩, fun content => ⟨?_, ?_, ?_⟩, ⟨?_, ?_, ?_⟩, fun content => ⟨?_, ?_, ?_⟩⟩
  · intro hnone
    simp only [deleteVideo, hufound, hnone]
  · intro v hv hown
    simp only [deleteVideo, hufound, hv]
    rw [if_pos (by simpa using hown)]
  · intro v hv hown
    simp only [deleteVideo, hufound, hv]
    rw [if_neg (by simp [hown])]
  · intro hnone
    simp only [editVideo, hnone]
  · intro v hv hown
    simp only [editVideo, hv]
    rw [if_pos (by simpa using hown)]
  · intro v hv hown
    simp only [editVideo, hv]
    rw [if_neg (by simp [hown])]
  · intro hnone
    simp only [deleteTweet, hufound, hnone]
  · intro t ht hown
    simp only [deleteTweet, hufound, ht]
    rw [if_pos (by simpa using hown)]
  · intro t ht hown
    simp only [deleteTweet, hufound, ht]
    rw [if_neg (by simp [hown])]
  · intro hnone
    simp only [editTweet, hufound, hnone]
  · intro t ht hown
    simp only [editTweet, hufound, ht]
    rw [if_pos (by simpa using hown)]
  · intro t ht hown htruthy
    simp only [editTweet, hufound, ht]
    rw [if_neg (by simp [hown]), if_pos htruthy]
  · intro hnone
    simp only [deleteComment, hufound, hnone]
  · intro c hc hown
    simp only [deleteComment, hufound, hc]
    rw [if_pos (by simpa using hown)]
  · intro c hc hown
    simp only [deleteComment, hufound, hc]
    rw [if_neg (by simp [hown])]
  · intro hnone
    simp only [editComment, hufound, hnone]
  · intro c hc hown
    simp only [editComment, hufound, hc]
    rw [if_pos (by simpa using hown)]
  · intro c s hc hown hcontent htrim
    subst hcontent
    simp only [editComment, hufound, hc]
    rw [if_neg (by simp [hown]), if_neg (by simpa using htrim)]

/-- A store with two accounts (1 owns everything, 2 owns nothing) and
one resource of each kind. -/
def storeC4 : Store :=
  { users := [{ id := 1, username := "owner", email := "o@example.com",
                password := "hash", avatar := "", coverImage := "",
                isPremium := false, watchHistory := [] },
              { id := 2, username := "other", email := "x@example.com",
                password := "hash", avatar := "", coverImage := "",
                isPremium := false, watchHistory := [] }],
    videos := [{ id := 7, owner := 1, title := "t", description := "d", thumbnail := "" }],
    tweets := [{ id := 8, owner := 1, content := "tw" }],
    comments := [{ id := 9, owner := 1, video := 7, content := "c" }],
    likes := [], subscriptions := [] }

/-- C4 witness: the non-owner account 2 deleting video 7 receives the
Unauthorized failure and the store is untouched. -/
theorem edit_delete_ownership_gate_witness :
    userExists storeC4 2 = true ∧
    deleteVideo storeC4 2 7
      = (.err 500 "Unable to delete the video."
          "Unauthorized: Only the owner can delete this video.", storeC4) :=
  ⟨by decide,
    (edit_delete_ownership_gate storeC4 2 7 (by decide)).1.2.1
      { id := 7, owner := 1, title := "t", description := "d", thumbnail := "" }
      (by decide) (by decide)⟩

/-- C8: a missing cookie, a bad signature, an expired token, or a token
whose account no longer exists each make the middleware answer 401,
and the protected handler is never consulted (the response does not
depend on it) — in particular a structurally valid, unexpired token of
a deleted account is treated as unauthenticated. -/
theorem auth_rejects_bad_sessions (store : Store) (cookie : Option SessionToken) (now : Nat)
    (h : cookie = none ∨ ∃ tok, cookie = some tok ∧
        (tok.sigValid = false ∨ tok.exp ≤ now ∨
          store.users.find? (fun u => u.id == tok.uid) = none)) :
    (authenticateUser store cookie now).allowed = false ∧
    (authenticateUser store cookie now).status = 401 ∧
    ∀ h1 h2 : User → Nat × String,
      withAuth store cookie now h1 = withAuth store cookie now h2 := by
  have hun : ∃ m, authenticateUser store cookie now = .unauthorized 401 m := by
    rcases h with rfl | ⟨tok, rfl, hbad⟩
    · exact ⟨_, rfl⟩
    · by_cases hsig : tok.sigValid
      · by_cases hexp : tok.exp ≤ now
        · refine ⟨"Session expired. Please log in again.", ?_⟩
          simp [authenticateUser, jwtVerify, hsig, hexp]
        · have hmiss : store.users.find? (fun u => u.id == tok.uid) = none := by
            rcases hbad with hb | hb | hb
            · rw [hsig] at hb; cases hb
            · exact absurd hb hexp
            · exact hb
          refine ⟨"Authentication failed. Please try again.", ?_⟩
          simp [authenticateUser, jwtVerify, hsig, hexp, hmiss]
      · refine ⟨"Invalid authentication token", ?_⟩
        simp only [Bool.not_eq_true] at hsig
        simp [authenticateUser, jwtVerify, hsig]
  obtain ⟨m, hm⟩ := hun
  rw [hm]
  refine ⟨rfl, rfl, fun h1 h2 => ?_⟩
  simp [withAuth, hm]

/-- A store holding only account 3, so account 7 has been deleted. -/
def storeC8 : Store :=
  { users := [{ id := 3, username := "carol", email := "c@example.com",
                password := "hash", avatar := "", coverImage := "",
                isPremium := false, watchHistory := [] }],
    videos := [], tweets := [], comments := [], likes := [], subscriptions := [] }

/-- A token with a valid signature and a future expiry, naming the
deleted account 7. -/
def tokenC8 : SessionToken := { uid := 7, exp := 100, sigValid := true }

/-- C8 witness: the deleted-account token is rejected with 401 even
though its signature is valid and it is unexpired. -/
theorem auth_rejects_bad_sessions_witness :
    (tokenC8.sigValid = true ∧ ¬ tokenC8.exp ≤ 0 ∧
      storeC8.users.find? (fun u => u.id == tokenC8.uid) = none) ∧
    (authenticateUser storeC8 (some tokenC8) 0).allowed = false ∧
    (authenticateUser storeC8 (some tokenC8) 0).status = 401 := by
  refine ⟨by decide, ?_, ?_⟩
  · exact (auth_rejects_bad_sessions storeC8 (some tokenC8) 0
      (Or.inr ⟨tokenC8, rfl, Or.inr (Or.inr (by decide))⟩)).1
  · exact (auth_rejects_bad_sessions storeC8 (some tokenC8) 0
      (Or.inr ⟨tokenC8, rfl, Or.inr (Or.inr (by decide))⟩)).2.1

/-- C9: the channel profile route answers any requester — whatever the
cookie, authentication is never consulted — and its projection carries
the resolved account's email. -/
theorem channel_view_exposes_email (store : Store) (cookie : Option SessionToken)
    (now : Nat) (username : String) (u : User)
    (hname : jsTrim username ≠ "")
    (hfind : store.users.find? (fun x => x.username == jsToLower username) = some u) :
    ∃ p, channelProfileRoute store cookie now username = .ok p ∧ p.email = u.email := by
  simp only [channelProfileRoute, getUserChannelProfile]
  rw [if_neg (by simpa using hname), hfind]
  exact ⟨_, rfl, rfl⟩

/-- A store with one channel account. -/
def storeC9 : Store :=
  { users := [{ id := 4, username := "dana", email := "dana@example.com",
                password := "hash", avatar := "", coverImage := "",
                isPremium := false, watchHistory := [] }],
    videos := [], tweets := [], comments := [], likes := [], subscriptions := [] }

/-- C9 witness: an unauthenticated request (no cookie) for handle
"dana" receives dana's email. -/
theorem channel_view_exposes_email_witness :
    (jsTrim "dana" ≠ "" ∧
      storeC9.users.find? (fun x => x.username == jsToLower "dana")
        = some { id := 4, username := "dana", email := "dana@example.com",
                 password := "hash", avatar := "", coverImage := "",
                 isPremium := false, watchHistory := [] }) ∧
    ∃ p, channelProfileRoute storeC9 none 0 "dana" = .ok p
      ∧ p.email = "dana@example.com" := by
  refine ⟨⟨by decide, by decide⟩, ?_⟩
  exact channel_view_exposes_email storeC9 none 0 "dana"
    { id := 4, username := "dana", email := "dana@example.com", password := "hash",
      avatar := "", coverImage := "", isPremium := false, watchHistory := [] }
    (by decide) (by decide)

/-- Store for the subscription-flag scenario: bob (2) follows alice
(1) and holds a valid, unexpired session token. -/
def storeC5 : Store :=
  { users := [{ id := 1, username := "alice", email := "alice@example.com",
                password := "hash", avatar := "", coverImage := "",
                isPremium := false, watchHistory := [] },
              { id := 2, username := "bob", email := "bob@example.com",
                password := "hash", avatar := "", coverImage := "",
                isPremium := false, watchHistory := [] }],
    videos := [], tweets := [], comments := [], likes := [],
    subscriptions := [{ subscriber := 2, channel := 1 }] }

/-- Bob's valid session token. -/
def tokenC5 : SessionToken := { uid := 2, exp := 100, sigValid := true }

/-- C5: the channel profile route registers no authentication
middleware, so `req.user` is undefined for every request and the
`$in` test can never see the viewer — an authenticated subscriber
(bob, valid token, follows alice) still receives isSubscribed =
false, against the route's own documented intent. -/
theorem channel_view_ignores_session_identity :
    authenticateUser storeC5 (some tokenC5) 0
      = .ok { id := 2, username := "bob", email := "bob@example.com",
              password := "hash", avatar := "", coverImage := "",
              isPremium := false, watchHistory := [] } ∧
    storeC5.subscriptions.any (fun s => s.subscriber == 2 && s.channel == 1) = true ∧
    Except.map (fun p : ChannelProfile => p.isSubscribed)
      (channelProfileRoute storeC5 (some tokenC5) 0 "alice") = .ok false := by
  exact ⟨by decide, by decide, rfl⟩

/-- Store for the history scenario: the videos collection holds video
1 then video 2, and account 1's stored history is [2, 1, 2]. -/
def storeC6 : Store :=
  { users := [{ id := 1, username := "alice", email := "alice@example.com",
                password := "hash", avatar := "av", coverImage := "",
                isPremium := false, watchHistory := [2, 1, 2] }],
    videos := [{ id := 1, owner := 1, title := "one", description := "", thumbnail := "" },
               { id := 2, owner := 1, title := "two", description := "", thumbnail := "" }],
    tweets := [], comments := [], likes := [], subscriptions := [] }

/-- Account 1's valid, unexpired session token. -/
def tokenC6 : SessionToken := { uid := 1, exp := 100, sigValid := true }

/-- C6 (code bug): the history route registers no authentication
middleware, so `req.user._id` raises on every request and the route
answers the 400 catch response — even for a logged-in account with a
non-empty stored history, no watched-content records are ever
returned, in any order. -/
theorem history_route_never_returns_history :
    authenticateUser storeC6 (some tokenC6) 0
      = .ok { id := 1, username := "alice", email := "alice@example.com",
              password := "hash", avatar := "av", coverImage := "",
              isPremium := false, watchHistory := [2, 1, 2] } ∧
    (storeC6.users.find? (fun u => u.id == 1)).map (fun u => u.watchHistory)
      = some [2, 1, 2] ∧
    historyRoute storeC6 (some tokenC6) 0
      = .error (400, "Unable to fetch the watch History") := by
  exact ⟨by decide, by decide, rfl⟩

/-- Store for the status-code scenario: account 2 is not the owner of
video 3. -/
def storeC7 : Store :=
  { users := [{ id := 1, username := "owner2", email := "o2@example.com",
                password := "hash", avatar := "", coverImage := "",
                isPremium := false, watchHistory := [] },
              { id := 2, username := "other2", email := "x2@example.com",
                password := "hash", avatar := "", coverImage := "",
                isPremium := false, watchHistory := [] }],
    videos := [{ id := 3, owner := 1, title := "t", description := "d", thumbnail := "" }],
    tweets := [], comments := [], likes := [], subscriptions := [] }

/-- C7 counterexample: the video-deletion handler returns an ownership
failure with HTTP status 500, not the claimed uniform 400. -/
theorem video_delete_failure_status_500 :
    deleteVideo storeC7 2 3
      = (.err 500 "Unable to delete the video."
          "Unauthorized: Only the owner can delete this video.", storeC7) ∧
    (500 : Nat) ≠ 400 := by
  exact ⟨by decide, by decide⟩

/-- C7 amended: across the embedded surface, every per-request failure
of a core operation is returned with status 400, except the
video-deletion handler whose catch block responds 500; status 401 is
produced exactly by session-resolution failure in the authentication
middleware. -/
theorem failure_status_uniformity :
    (∀ store uid i body s m e,
      (videoToggleLike store uid i body).1 = .err s m e → s = 400) ∧
    (∀ store uid i body s m e,
      (tweetToggleLike store uid i body).1 = .err s m e → s = 400) ∧
    (∀ store uid i body s m e,
      (commentToggleLike store uid i body).1 = .err s m e → s = 400) ∧
    (∀ store uid i t d th s m e,
      (editVideo store uid i t d th).1 = .err s m e → s = 400) ∧
    (∀ store uid i s m e, (deleteTweet store uid i).1 = .err s m e → s = 400) ∧
    (∀ store uid i c s m e, (editTweet store uid i c).1 = .err s m e → s = 400) ∧
    (∀ store uid i s m e, (deleteComment store uid i).1 = .err s m e → s = 400) ∧
    (∀ store uid i c s m e, (editComment store uid i c).1 = .err s m e → s = 400) ∧
    (∀ store cookie now uname s m,
      channelProfileRoute store cookie now uname = .error (s, m) → s = 400) ∧
    (∀ store uid s m, getWatchHistory store uid = .error (s, m) → s = 400) ∧
    (∀ store uid i s m e, (deleteVideo store uid i).1 = .err s m e → s = 500) ∧
    (∀ store cookie now s m,
      authenticateUser store cookie now = .unauthorized s m → s = 401) := by
  refine ⟨?_, ?_, ?_, ?_, ?_, ?_, ?_, ?_, ?_, ?_, ?_, ?_⟩
  · intro store uid i body s m e h
    simp only [videoToggleLike] at h
    repeat' split at h
    all_goals cases h <;> rfl
  · intro store uid i body s m e h
    simp only [tweetToggleLike] at h
    repeat' split at h
    all_goals cases h <;> rfl
  · intro store uid i body s m e h
    simp only [commentToggleLike] at h
    repeat' split at h
    all_goals cases h <;> rfl
  · intro store uid i t d th s m e h
    simp only [editVideo] at h
    repeat' split at h
    all_goals cases h <;> rfl
  · intro store uid i s m e h
    simp only [deleteTweet] at h
    repeat' split at h
    all_goals cases h <;> rfl
  · intro store uid i c s m e h
    simp only [editTweet] at h
    repeat' split at h
    all_goals cases h <;> rfl
  · intro store uid i s m e h
    simp only [deleteComment] at h
    repeat' split at h
    all_goals cases h <;> rfl
  · intro store uid i c s m e h
    simp only [editComment] at h
    repeat' split at h
    all_goals cases h <;> rfl
  · intro store cookie now uname s m h
    simp only [channelProfileRoute, getUserChannelProfile] at h
    repeat' split at h
    all_goals cases h <;> rfl
  · intro store uid s m h
    simp only [getWatchHistory] at h
    repeat' split at h
    all_goals cases h <;> rfl
  · intro store uid i s m e h
    simp only [deleteVideo] at h
    repeat' split at h
    all_goals cases h <;> rfl
  · intro store cookie now s m h
    simp only [authenticateUser, jwtVerify] at h
    repeat' split at h
    all_goals cases h <;> rfl

/-- C7 amended-claim witness: concrete failing calls produce 400 on a
toggle route, 500 on video deletion, 401 on authentication. -/
theorem failure_status_uniformity_witness :
    ((videoToggleLike storeC7 2 99 (.bool true)).1
        = .err 400 "Unable to toggle the like" "Unable to find the video" ∧
      (400 : Nat) = 400) ∧
    ((deleteVideo storeC7 2 3).1
        = .err 500 "Unable to delete the video."
            "Unauthorized: Only the owner can delete this video." ∧
      (500 : Nat) = 500) ∧
    (authenticateUser storeC7 none 0
        = .unauthorized 401 "Authentication failed. Please try again." ∧
      (401 : Nat) = 401) := by
  refine ⟨⟨by decide, ?_⟩, ⟨by decide, ?_⟩, ⟨by decide, ?_⟩⟩
  · exact failure_status_uniformity.1 storeC7 2 99 (.bool true) 400
      "Unable to toggle the like" "Unable to find the video" (by decide)
  · exact failure_status_uniformity.2.2.2.2.2.2.2.2.2.2.1 storeC7 2 3 500
      "Unable to delete the video."
      "Unauthorized: Only the owner can delete this video." (by decide)
  · exact failure_status_uniformity.2.2.2.2.2.2.2.2.2.2.2 storeC7 none 0 401
      "Authentication failed. Please try again." (by decide)

/-- C10: the shared registration/login field check trips exactly when
some supplied field trims to the empty string; a field that is absent
(undefined) passes the check, since the optional chain compares
undefined with the empty string. -/
theorem all_fields_required_check (u e p : Option String) :
    (registerAllFieldsCheckFails u e p = true ↔
      (∃ s : String, (u = some s ∨ e = some s ∨ p = some s) ∧ jsTrim s = "")) ∧
    (loginAllFieldsCheckFails e p = true ↔
      (∃ s : String, (e = some s ∨ p = some s) ∧ jsTrim s = "")) ∧
    registerAllFieldsCheckFails none none none = false ∧
    loginAllFieldsCheckFails none none = false := by
  refine ⟨?_, ?_, rfl, rfl⟩
  · rcases u with _ | su <;> rcases e with _ | se <;> rcases p with _ | sp <;>
      simp [registerAllFieldsCheckFails, someFieldBlank, or_and_right,
        exists_or, exists_eq_left']
  · rcases e with _ | se <;> rcases p with _ | sp <;>
      simp [loginAllFieldsCheckFails, someFieldBlank, or_and_right,
        exists_or, exists_eq_left']

/-- An empty store for the duplicate-reaction-insert scenario. -/
def storeC2 : Store :=
  { users := [], videos := [], tweets := [], comments := [],
    likes := [], subscriptions := [] }

/-- The like row inserted twice in the C2 counterexample. -/
def likeRowC2 : Like := { likedBy := 1, video := some 5, isLiked := true }

/-- C2 counterexample: the likes schema declares no unique constraint
at all, and the store accepts the same (account, target) like row
twice — the duplicate is not rejected at the write layer. -/
theorem like_schema_no_unique_constraint :
    likeSchemaIndexes.all (fun ix => !ix.unique) = true ∧
    ((insertLike (insertLike storeC2 likeRowC2) likeRowC2).likes.filter
      (fun l => l.video == some 5 && l.likedBy == 1)).length = 2 := by
  exact ⟨by decide, by decide⟩

/-- A store already holding the (2, 1) follow edge. -/
def storeC2b : Store :=
  { users := [], videos := [], tweets := [], comments := [], likes := [],
    subscriptions := [{ subscriber := 2, channel := 1 }] }

/-- C2 amended: subscriptions carry the compound unique index on
(subscriber, channel) and the store itself rejects a duplicate edge
with a duplicate-key error; the reactions schema declares only
non-unique single-field indexes, so the store accepts duplicate
reaction rows and per-pair uniqueness rests on the application's
check-then-write. -/
theorem uniqueness_constraints_by_collection :
    (∃ ix ∈ subscriptionSchemaIndexes,
      ix.unique = true ∧ ix.fields = ["subscriber", "channel"]) ∧
    (∀ store s,
      store.subscriptions.any
        (fun t => t.subscriber == s.subscriber && t.channel == s.channel) = true →
      insertSubscription store s = .error "E11000 duplicate key") ∧
    (∀ store s,
      store.subscriptions.any
        (fun t => t.subscriber == s.subscriber && t.channel == s.channel) = false →
      insertSubscription store s
        = .ok { store with subscriptions := store.subscriptions ++ [s] }) ∧
    (∀ ix ∈ likeSchemaIndexes, ix.unique = false) ∧
    (∀ store l, (insertLike store l).likes = store.likes ++ [l]) := by
  refine ⟨⟨{ fields := ["subscriber", "channel"], unique := true },
      by decide, by decide, by decide⟩, ?_, ?_, by decide, fun store l => rfl⟩
  · intro store s h
    simp only [insertSubscription]
    rw [if_pos h]
  · intro store s h
    simp only [insertSubscription]
    rw [if_neg (by simp [h])]

/-- C2 amended-claim witness: inserting the already-present (2, 1)
edge is rejected by the store. -/
theorem uniqueness_constraints_by_collection_witness :
    storeC2b.subscriptions.any
      (fun t => t.subscriber == (2 : Nat) && t.channel == (1 : Nat)) = true ∧
    insertSubscription storeC2b { subscriber := 2, channel := 1 }
      = .error "E11000 duplicate key" :=
  ⟨by decide, uniqueness_constraints_by_collection.2.1 storeC2b
    { subscriber := 2, channel := 1 } (by decide)⟩

end YoutubeCore
